import Mathlib

/-!
Verification of the `web-push-encryption` library (payload encryption and
delivery for the Web Push protocol).

The development shallowly embeds the two modules found in the repository
source: the encryption module (`encrypt`, `createContext`, `createInfo`,
`hkdf`, `encryptPayload`) and the delivery module (`sendWebPush`,
`addAuthToken`, `getAuthToken`, `ub64`), together with concrete models of
the cryptographic primitives the code pulls from the platform library
(SHA-256, HMAC-SHA-256, AES-128 and its Galois/Counter mode).

Bytes are modelled as `List Nat`, each entry a value below 256; machine
32-bit arithmetic is modelled on `Nat` with explicit reduction modulo
`2 ^ 32`.
-/

set_option autoImplicit false

namespace WebPush

/-- Byte strings: lists of byte values (each below 256). -/
abbrev Bytes := List Nat

/-- UTF-8 bytes of an ASCII string (all string constants in the source are
ASCII, where UTF-8 coincides with the code points). -/
def strBytes (s : String) : Bytes := s.data.map Char.toNat

/-- Big-endian 16-bit encoding (`Buffer.writeUInt16BE`). -/
def be16 (n : Nat) : Bytes := [n / 256 % 256, n % 256]

/-- Big-endian 32-bit encoding. -/
def be32 (w : Nat) : Bytes := [w / 16777216 % 256, w / 65536 % 256, w / 256 % 256, w % 256]

/-- Big-endian 64-bit encoding. -/
def be64 (w : Nat) : Bytes :=
  [w / 72057594037927936 % 256, w / 281474976710656 % 256, w / 1099511627776 % 256,
   w / 4294967296 % 256, w / 16777216 % 256, w / 65536 % 256, w / 256 % 256, w % 256]

/-- 32-bit word from four bytes, big endian. -/
def word32 (b0 b1 b2 b3 : Nat) : Nat := b0 * 16777216 + b1 * 65536 + b2 * 256 + b3

/-- Addition modulo `2 ^ 32`. -/
def add32 (a b : Nat) : Nat := (a + b) % 4294967296

/-- Rotate a 32-bit word right by `n` bits. -/
def rotr32 (n x : Nat) : Nat := (x / 2 ^ n + x % 2 ^ n * 2 ^ (32 - n)) % 4294967296

/-- Logical right shift of a 32-bit word. -/
def shr32 (n x : Nat) : Nat := x / 2 ^ n

/-! ### SHA-256 (FIPS 180-4), the hash behind `crypto.createHmac('sha256', _)` -/

def bsig0 (x : Nat) : Nat := Nat.xor (rotr32 2 x) (Nat.xor (rotr32 13 x) (rotr32 22 x))

def bsig1 (x : Nat) : Nat := Nat.xor (rotr32 6 x) (Nat.xor (rotr32 11 x) (rotr32 25 x))

def ssig0 (x : Nat) : Nat := Nat.xor (rotr32 7 x) (Nat.xor (rotr32 18 x) (shr32 3 x))

def ssig1 (x : Nat) : Nat := Nat.xor (rotr32 17 x) (Nat.xor (rotr32 19 x) (shr32 10 x))

/-- SHA-256 choice function; 32-bit complement taken as xor with `2 ^ 32 - 1`. -/
def chF (x y z : Nat) : Nat := Nat.xor (Nat.land x y) (Nat.land (Nat.xor x 4294967295) z)

def majF (x y z : Nat) : Nat :=
  Nat.xor (Nat.land x y) (Nat.xor (Nat.land x z) (Nat.land y z))

/-- Round constants of SHA-256 (the 64 values of FIPS 180-4, in decimal). -/
def K256 : List Nat :=
  [1116352408, 1899447441, 3049323471, 3921009573, 961987163, 1508970993,
   2453635748, 2870763221, 3624381080, 310598401, 607225278, 1426881987,
   1925078388, 2162078206, 2614888103, 3248222580, 3835390401, 4022224774,
   264347078, 604807628, 770255983, 1249150122, 1555081692, 1996064986,
   2554220882, 2821834349, 2952996808, 3210313671, 3336571891, 3584528711,
   113926993, 338241895, 666307205, 773529912, 1294757372, 1396182291,
   1695183700, 1986661051, 2177026350, 2456956037, 2730485921, 2820302411,
   3259730800, 3345764771, 3516065817, 3600352804, 4094571909, 275423344,
   430227734, 506948616, 659060556, 883997877, 958139571, 1322822218,
   1537002063, 1747873779, 1955562222, 2024104815, 2227730452, 2361852424,
   2428436474, 2756734187, 3204031479, 3329325298]

/-- Working state of the compression function: eight 32-bit words. -/
structure Digest8 where
  a : Nat
  b : Nat
  c : Nat
  d : Nat
  e : Nat
  f : Nat
  g : Nat
  h : Nat

/-- The initial hash value of SHA-256, in decimal. -/
def initDigest : Digest8 :=
  ⟨1779033703, 3144134277, 1013904242, 2773480762, 1359893119, 2600822924, 528734635, 1541459225⟩

/-- One round of the compression function; `kw` pairs the schedule word with
the round constant. -/
def shaRound (d : Digest8) (kw : Nat × Nat) : Digest8 :=
  let t1 := add32 d.h (add32 (bsig1 d.e) (add32 (chF d.e d.f d.g) (add32 kw.1 kw.2)))
  let t2 := add32 (bsig0 d.a) (majF d.a d.b d.c)
  ⟨add32 t1 t2, d.a, d.b, d.c, add32 d.d t1, d.e, d.f, d.g⟩

/-- Next word of the message schedule, from the last 16 words produced. -/
def nextW (ws : List Nat) : Nat :=
  let n := ws.length
  add32 (ssig1 (ws.getD (n - 2) 0))
    (add32 (ws.getD (n - 7) 0) (add32 (ssig0 (ws.getD (n - 15) 0)) (ws.getD (n - 16) 0)))

/-- Extend the message schedule by the given number of words. -/
def extendW : List Nat → Nat → List Nat
  | ws, 0 => ws
  | ws, n + 1 => extendW (ws ++ [nextW ws]) n

/-- The first `n` 32-bit big-endian words of a byte string. -/
def wordsOf (bs : Bytes) (n : Nat) : List Nat :=
  (List.range n).map fun i =>
    word32 (bs.getD (4 * i) 0) (bs.getD (4 * i + 1) 0) (bs.getD (4 * i + 2) 0) (bs.getD (4 * i + 3) 0)

/-- Compression of one 64-byte chunk into the running digest. -/
def compress (d : Digest8) (chunk : Bytes) : Digest8 :=
  let ws := extendW (wordsOf chunk 16) 48
  let r := (ws.zip K256).foldl shaRound d
  ⟨add32 d.a r.a, add32 d.b r.b, add32 d.c r.c, add32 d.d r.d,
   add32 d.e r.e, add32 d.f r.f, add32 d.g r.g, add32 d.h r.h⟩

/-- SHA-256 padding: a 0x80 byte, zeros, and the 64-bit bit length, to a
multiple of 64 bytes. -/
def shaPad (msg : Bytes) : Bytes :=
  msg ++ 128 :: List.replicate ((64 - (msg.length + 9) % 64) % 64) 0 ++ be64 (8 * msg.length)

/-- Fold the compression function over successive 64-byte chunks. -/
def processChunks : Digest8 → Bytes → Digest8
  | d, [] => d
  | d, b :: rest =>
    processChunks (compress d (List.take 64 (b :: rest))) (List.drop 64 (b :: rest))
termination_by _ bs => bs.length
decreasing_by simp [List.length_drop]; omega

/-- Serialization of the final digest: eight big-endian words. -/
def digestBytes (d : Digest8) : Bytes :=
  be32 d.a ++ be32 d.b ++ be32 d.c ++ be32 d.d ++ be32 d.e ++ be32 d.f ++ be32 d.g ++ be32 d.h

/-- SHA-256 of a byte string. -/
def sha256 (msg : Bytes) : Bytes := digestBytes (processChunks initDigest (shaPad msg))

/-! ### HMAC-SHA-256 (RFC 2104), modelling `crypto.createHmac('sha256', key)` -/

/-- The HMAC key, hashed if longer than the 64-byte block and zero-padded to
the block size. -/
def hmacKey (key : Bytes) : Bytes :=
  let k := if 64 < key.length then sha256 key else key
  k ++ List.replicate (64 - k.length) 0

/-- One-shot HMAC-SHA-256. -/
def hmacSha256 (key msg : Bytes) : Bytes :=
  let k := hmacKey key
  sha256 (k.map (Nat.xor 92) ++ sha256 (k.map (Nat.xor 54) ++ msg))

/-- Streaming HMAC object, as returned by `crypto.createHmac`: it accumulates
the bytes passed to `update` and hashes them on `digest`. -/
structure Hmac where
  key : Bytes
  data : Bytes

/-- Models `crypto.createHmac('sha256', key)`. -/
def createHmac (key : Bytes) : Hmac := ⟨key, []⟩

/-- Models `hmac.update(d)`. -/
def Hmac.update (h : Hmac) (d : Bytes) : Hmac := ⟨h.key, h.data ++ d⟩

/-- Models `hmac.digest()`. -/
def Hmac.digest (h : Hmac) : Bytes := hmacSha256 h.key h.data

/-- Models the constant `ONE_BUFFER = new Buffer(1).fill(1)`. -/
def ONE_BUFFER : Bytes := [1]

/-- Models `hkdf(salt, ikm, info, length)` from the encryption module:
extract a pseudo-random key with HMAC keyed by the salt, expand with HMAC
keyed by the PRK over the info followed by `ONE_BUFFER`, and truncate. -/
def hkdf (salt ikm info : Bytes) (length : Nat) : Bytes :=
  let prkHmac := (createHmac salt).update ikm
  let prk := prkHmac.digest
  let infoHmac := ((createHmac prk).update info).update ONE_BUFFER
  infoHmac.digest.take length

/-! ### AES-128 (FIPS 197), the block cipher behind `id-aes128-GCM` -/

/-- The AES S-box (FIPS 197, figure 7). -/
def sboxTable : List Nat :=
  [99, 124, 119, 123, 242, 107, 111, 197, 48, 1, 103, 43, 254, 215, 171, 118,
   202, 130, 201, 125, 250, 89, 71, 240, 173, 212, 162, 175, 156, 164, 114, 192,
   183, 253, 147, 38, 54, 63, 247, 204, 52, 165, 229, 241, 113, 216, 49, 21,
   4, 199, 35, 195, 24, 150, 5, 154, 7, 18, 128, 226, 235, 39, 178, 117,
   9, 131, 44, 26, 27, 110, 90, 160, 82, 59, 214, 179, 41, 227, 47, 132,
   83, 209, 0, 237, 32, 252, 177, 91, 106, 203, 190, 57, 74, 76, 88, 207,
   208, 239, 170, 251, 67, 77, 51, 133, 69, 249, 2, 127, 80, 60, 159, 168,
   81, 163, 64, 143, 146, 157, 56, 245, 188, 182, 218, 33, 16, 255, 243, 210,
   205, 12, 19, 236, 95, 151, 68, 23, 196, 167, 126, 61, 100, 93, 25, 115,
   96, 129, 79, 220, 34, 42, 144, 136, 70, 238, 184, 20, 222, 94, 11, 219,
   224, 50, 58, 10, 73, 6, 36, 92, 194, 211, 172, 98, 145, 149, 228, 121,
   231, 200, 55, 109, 141, 213, 78, 169, 108, 86, 244, 234, 101, 122, 174, 8,
   186, 120, 37, 46, 28, 166, 180, 198, 232, 221, 116, 31, 75, 189, 139, 138,
   112, 62, 181, 102, 72, 3, 246, 14, 97, 53, 87, 185, 134, 193, 29, 158,
   225, 248, 152, 17, 105, 217, 142, 148, 155, 30, 135, 233, 206, 85, 40, 223,
   140, 161, 137, 13, 191, 230, 66, 104, 65, 153, 45, 15, 176, 84, 187, 22]

/-- S-box lookup. -/
def sbox (b : Nat) : Nat := sboxTable.getD (b % 256) 0

/-- Multiplication by x in GF(2^8) modulo the AES polynomial. -/
def xtime (b : Nat) : Nat := if b < 128 then 2 * b else Nat.xor (2 * b - 256) 27

/-- Multiplication by x + 1 in GF(2^8). -/
def mul3 (b : Nat) : Nat := Nat.xor (xtime b) b

/-- Round constants for the AES-128 key schedule, as 32-bit words. -/
def rconW : List Nat :=
  [0x01000000, 0x02000000, 0x04000000, 0x08000000, 0x10000000,
   0x20000000, 0x40000000, 0x80000000, 0x1b000000, 0x36000000]

/-- S-box applied to each byte of a 32-bit word. -/
def subWord (w : Nat) : Nat :=
  word32 (sbox (w / 16777216 % 256)) (sbox (w / 65536 % 256)) (sbox (w / 256 % 256)) (sbox (w % 256))

/-- Left rotation of a 32-bit word by one byte. -/
def rotWord (w : Nat) : Nat := w % 16777216 * 256 + w / 16777216

/-- Append the given number of further key-schedule words. -/
def expandKeyAux : List Nat → Nat → List Nat
  | ws, 0 => ws
  | ws, n + 1 =>
    let i := ws.length
    let prev := ws.getD (i - 1) 0
    let temp :=
      if i % 4 == 0 then Nat.xor (subWord (rotWord prev)) (rconW.getD (i / 4 - 1) 0) else prev
    expandKeyAux (ws ++ [Nat.xor (ws.getD (i - 4) 0) temp]) n

/-- AES-128 key expansion: 44 words (11 round keys). -/
def expandKey (key : Bytes) : List Nat := expandKeyAux (wordsOf key 4) 40

/-- The 16 bytes of round key `r`. -/
def roundKeyBytes (ws : List Nat) (r : Nat) : Bytes :=
  be32 (ws.getD (4 * r) 0) ++ be32 (ws.getD (4 * r + 1) 0) ++
  be32 (ws.getD (4 * r + 2) 0) ++ be32 (ws.getD (4 * r + 3) 0)

/-- State bytes are kept in input order: byte `i` holds state row `i % 4`,
column `i / 4`. -/
def addRoundKey (st rk : Bytes) : Bytes :=
  List.ofFn fun i : Fin 16 => Nat.xor (st.getD i.val 0) (rk.getD i.val 0)

def subBytesOp (st : Bytes) : Bytes := List.ofFn fun i : Fin 16 => sbox (st.getD i.val 0)

/-- Row `r` is rotated left by `r` columns. -/
def shiftRowsOp (st : Bytes) : Bytes :=
  List.ofFn fun i : Fin 16 => st.getD (i.val % 4 + 4 * ((i.val / 4 + i.val % 4) % 4)) 0

def mixColumnsOp (st : Bytes) : Bytes :=
  List.ofFn fun i : Fin 16 =>
    let a := fun j => st.getD ((i.val % 4 + j) % 4 + 4 * (i.val / 4)) 0
    Nat.xor (xtime (a 0)) (Nat.xor (mul3 (a 1)) (Nat.xor (a 2) (a 3)))

/-- One full AES round. -/
def aesRound (rk st : Bytes) : Bytes := addRoundKey (mixColumnsOp (shiftRowsOp (subBytesOp st))) rk

/-- The final AES round omits MixColumns. -/
def aesFinalRound (rk st : Bytes) : Bytes := addRoundKey (shiftRowsOp (subBytesOp st)) rk

/-- AES-128 encryption of one 16-byte block. -/
def aes128Block (key block : Bytes) : Bytes :=
  let ws := expandKey key
  let st0 := addRoundKey block (roundKeyBytes ws 0)
  let stMid := (List.range 9).foldl (fun st r => aesRound (roundKeyBytes ws (r + 1)) st) st0
  aesFinalRound (roundKeyBytes ws 10) stMid

/-! ### Galois/Counter mode (NIST SP 800-38D) with a 96-bit IV and no
additional authenticated data, as used by `crypto.createCipheriv('id-aes128-GCM', key, nonce)` -/

/-- A 16-byte block as a 128-bit big-endian number. -/
def bytesToNat (bs : Bytes) : Nat := bs.foldl (fun acc b => acc * 256 + b % 256) 0

/-- Multiplication by x in GF(2^128) under GCM's bit ordering: the
polynomial is tracked with its lowest-degree coefficient in the
most-significant bit. -/
def gf128MulX (v : Nat) : Nat :=
  if v % 2 == 0 then v / 2 else Nat.xor (v / 2) (225 * 2 ^ 120)

/-- GF(2^128) product of two blocks. -/
def gf128Mul (x y : Nat) : Nat :=
  ((List.range 128).foldl
    (fun zv i =>
      (if x / 2 ^ (127 - i) % 2 == 1 then Nat.xor zv.1 zv.2 else zv.1, gf128MulX zv.2))
    (0, y)).1

/-- GHASH over a sequence of 16-byte blocks (a short final block is
zero-padded on the right). -/
def ghashBlocks : Nat → Nat → Bytes → Nat
  | _, y, [] => y
  | h, y, b :: rest =>
    let chunk := List.take 16 (b :: rest)
    let block := bytesToNat (chunk ++ List.replicate (16 - chunk.length) 0)
    ghashBlocks h (gf128Mul (Nat.xor y block) h) (List.drop 16 (b :: rest))
termination_by _ _ bs => bs.length
decreasing_by simp [List.length_drop]; omega

/-- The GCM authentication tag over a ciphertext (no additional data): GHASH
under the hash subkey, finished with the length block, then masked with the
encrypted pre-counter block. -/
def gcmTag (key iv ct : Bytes) : Bytes :=
  let h := bytesToNat (aes128Block key (List.replicate 16 0))
  let s := ghashBlocks h 0 (ct ++ List.replicate ((16 - ct.length % 16) % 16) 0 ++ be64 0 ++ be64 (8 * ct.length))
  let ek0 := aes128Block key (iv ++ [0, 0, 0, 1])
  List.ofFn fun i : Fin 16 => Nat.xor (s / 256 ^ (15 - i.val) % 256) (ek0.getD i.val 0)

/-- Byte `i` of the GCM keystream: counter blocks start at 2 for a 96-bit IV. -/
def ksByte (key iv : Bytes) (i : Nat) : Nat :=
  (aes128Block key (iv ++ be32 (2 + i / 16))).getD (i % 16) 0

/-- XOR a byte string against the keystream starting at the given offset. -/
def xorKeystream (key iv : Bytes) : Nat → Bytes → Bytes
  | _, [] => []
  | off, b :: rest => Nat.xor b (ksByte key iv off) :: xorKeystream key iv (off + 1) rest

/-- Streaming state of `crypto.createCipheriv('id-aes128-GCM', key, iv)`:
the keystream offset consumed so far and the ciphertext accumulated for the
authentication tag. -/
structure CipherState where
  key : Bytes
  iv : Bytes
  processed : Nat
  ciphertextSoFar : Bytes

/-- Models `crypto.createCipheriv('id-aes128-GCM', key, iv)`. -/
def createCipheriv (key iv : Bytes) : CipherState := ⟨key, iv, 0, []⟩

/-- Models `cipher.update(data)`: in GCM the returned ciphertext has the
length of the input. -/
def CipherState.update (s : CipherState) (data : Bytes) : Bytes × CipherState :=
  let out := xorKeystream s.key s.iv s.processed data
  (out, ⟨s.key, s.iv, s.processed + data.length, s.ciphertextSoFar ++ out⟩)

/-- Models `cipher.getAuthTag()` (after `cipher.final()`, which returns no
further bytes in GCM). -/
def CipherState.getAuthTag (s : CipherState) : Bytes := gcmTag s.key s.iv s.ciphertextSoFar

/-- Models the constant `PADDING_BUFFER = new Buffer(2).fill(0)`. -/
def PADDING_BUFFER : Bytes := [0, 0]

/-- Models `encryptPayload(plaintext, contentEncryptionKey, nonce)` from the
encryption module: feed the two-byte zero padding prefix and then the
plaintext through the streaming AES-128-GCM cipher and append the tag. -/
def encryptPayload (plaintext contentEncryptionKey nonce : Bytes) : Bytes :=
  let cipher := createCipheriv contentEncryptionKey nonce
  let pr := cipher.update PADDING_BUFFER
  let tr := pr.2.update plaintext
  pr.1 ++ tr.1 ++ tr.2.getAuthTag

/-- One-shot AES-128-GCM encryption, stated as in the specification:
ciphertext and 16-byte tag of a whole plaintext. -/
def aes128gcm (key iv plaintext : Bytes) : Bytes × Bytes :=
  let c := xorKeystream key iv 0 plaintext
  (c, gcmTag key iv c)

/-! ### The encryption module: `createContext`, `createInfo`, `encrypt` -/

/-- Models `createContext(clientPublicKey, serverPublicKey)`: a zero byte,
then each key preceded by its big-endian 16-bit length, written into a
135-byte buffer; both keys must be exactly 65 bytes. -/
def createContext (clientPublicKey serverPublicKey : Bytes) : Except String Bytes :=
  if clientPublicKey.length ≠ 65 then Except.error "Invalid client public key length"
  else if serverPublicKey.length ≠ 65 then Except.error "Invalid server public key length"
  else Except.ok ([0] ++ be16 clientPublicKey.length ++ clientPublicKey ++
                  be16 serverPublicKey.length ++ serverPublicKey)

/-- Models `createInfo(type, context)`: the ASCII text of
`Content-Encoding: `, the type, a zero byte, `P-256` and the 135-byte
context. -/
def createInfo (type : String) (context : Bytes) : Except String Bytes :=
  if context.length ≠ 135 then Except.error "Context argument has invalid size"
  else Except.ok (strBytes "Content-Encoding: " ++ strBytes type ++ [0] ++ strBytes "P-256" ++ context)

/-- Models the constant `AUTH_INFO = new Buffer('Content-Encoding: auth\0', 'utf8')`. -/
def AUTH_INFO : Bytes := strBytes "Content-Encoding: auth" ++ [0]

/-- Models `MAX_PAYLOAD_LENGTH = 4080`. -/
def MAX_PAYLOAD_LENGTH : Nat := 4080

/-- The `keys` field of a push subscription. The base64 key strings are
modelled by their decoded byte strings (`new Buffer(s, 'base64')` never
fails); a missing or falsy field is `none`. -/
structure SubscriptionKeys where
  p256dh : Option Bytes
  auth : Option Bytes

/-- A push subscription as passed by the caller. -/
structure Subscription where
  endpoint : Option String
  keys : Option SubscriptionKeys

/-- The random and platform-supplied inputs consumed by one `encrypt` call:
the 16 bytes of `crypto.randomBytes(16)`, the public key produced by
`serverECDH.generateKeys()`, and `serverECDH.computeSecret`, modelled as a
function of the client public key (total: the client keys appearing in the
claims are valid curve points). -/
structure Randomness where
  salt : Bytes
  serverPublicKey : Bytes
  ecdhSecret : Bytes → Bytes

/-- The value returned by `encrypt`. -/
structure EncryptionResult where
  ciphertext : Bytes
  salt : Bytes
  serverPublicKey : Bytes

/-- Models `encrypt(message, subscription)` from the encryption module, with
the randomness it consumes made explicit. The message is given by its UTF-8
bytes (`new Buffer(message, 'utf8')`). Thrown errors are modelled as
`Except.error` with the thrown message. -/
def encrypt (message : Bytes) (subscription : Option Subscription) (r : Randomness) :
    Except String EncryptionResult :=
  if message.length > MAX_PAYLOAD_LENGTH then
    Except.error ("Payload is too large: " ++ toString message.length ++ " bytes")
  else
    match subscription with
    | none => Except.error "Subscription has no encryption details"
    | some sub =>
      match sub.keys with
      | none => Except.error "Subscription has no encryption details"
      | some ks =>
        match ks.p256dh, ks.auth with
        | some clientPublicKey, some clientAuthToken =>
          let salt := r.salt
          let serverPublicKey := r.serverPublicKey
          let sharedSecret := r.ecdhSecret clientPublicKey
          let prk := hkdf clientAuthToken sharedSecret AUTH_INFO 32
          match createContext clientPublicKey serverPublicKey with
          | Except.error e => Except.error e
          | Except.ok context =>
            match createInfo "aesgcm" context with
            | Except.error e => Except.error e
            | Except.ok contentEncryptionKeyInfo =>
              let contentEncryptionKey := hkdf salt prk contentEncryptionKeyInfo 16
              match createInfo "nonce" context with
              | Except.error e => Except.error e
              | Except.ok nonceInfo =>
                let nonce := hkdf salt prk nonceInfo 12
                Except.ok ⟨encryptPayload message contentEncryptionKey nonce, salt, serverPublicKey⟩
        | _, _ => Except.error "Subscription has no encryption details"

/-! ### The delivery module: `ub64`, auth tokens, endpoint rewriting,
`sendWebPush` -/

/-- The URL-safe base64 alphabet: the standard alphabet with the final two
characters replaced, which realizes the source's replacement of `+` and `/`. -/
def ub64Chars : List Char :=
  "ABCDEFGHIJKLMNOPQRSTUVWXYZabcdefghijklmnopqrstuvwxyz0123456789-_".data

def ub64Char (n : Nat) : Char := ub64Chars.getD (n % 64) 'A'

/-- Base64 groups without padding characters, which realizes the source's
stripping of `=`. -/
def ub64Core : Bytes → List Char
  | [] => []
  | [b1] => [ub64Char (b1 / 4), ub64Char (b1 % 4 * 16)]
  | [b1, b2] => [ub64Char (b1 / 4), ub64Char (b1 % 4 * 16 + b2 / 16), ub64Char (b2 % 16 * 4)]
  | b1 :: b2 :: b3 :: rest =>
    ub64Char (b1 / 4) :: ub64Char (b1 % 4 * 16 + b2 / 16) ::
    ub64Char (b2 % 16 * 4 + b3 / 64) :: ub64Char (b3 % 64) :: ub64Core rest

/-- Models `ub64(buffer)`: base64 with `+` as `-`, `/` as `_` and `=`
stripped. -/
def ub64 (buffer : Bytes) : String := ⟨ub64Core buffer⟩

/-- Models the constant `GCM_URL`. -/
def GCM_URL : String := "https://android.googleapis.com/gcm/send"

/-- Models the constant `TEMP_GCM_URL`. -/
def TEMP_GCM_URL : String := "https://gcm-http.googleapis.com/gcm"

/-- Substring scan over character lists: true when `sub` occurs in `s`. -/
def containsList (sub : List Char) : List Char → Bool
  | [] => sub.isPrefixOf ([] : List Char)
  | c :: rest => sub.isPrefixOf (c :: rest) || containsList sub rest

/-- Models JavaScript `s.indexOf(sub) !== -1`: substring containment. -/
def containsSub (s sub : String) : Bool := containsList sub.data s.data

/-- An entry of the `authTokens` array. -/
structure AuthEntry where
  pattern : String
  token : String

/-- Models `getAuthToken(endpoint)`: scan the registered entries in order and
return the token of the first entry whose pattern occurs in the endpoint
(the source's loop returns `undefined`, here `none`, when it falls through). -/
def getAuthToken : List AuthEntry → String → Option String
  | [], _ => none
  | e :: rest, endpoint =>
    if containsSub endpoint e.pattern then some e.token else getAuthToken rest endpoint

/-- Models `addAuthToken(pattern, token)`: push onto the `authTokens` array. -/
def addAuthToken (tokens : List AuthEntry) (pattern token : String) : List AuthEntry :=
  tokens ++ [⟨pattern, token⟩]

/-- Models JavaScript `s.replace(pat, rep)` with a string pattern: only the
first occurrence is replaced; a string containing no occurrence is returned
unchanged. -/
def replaceFirst (pat rep : List Char) : List Char → List Char
  | [] => if pat.isPrefixOf ([] : List Char) then rep else []
  | c :: rest =>
    if pat.isPrefixOf (c :: rest) then rep ++ List.drop pat.length (c :: rest)
    else c :: replaceFirst pat rep rest

/-- Models `endpoint.replace(GCM_URL, TEMP_GCM_URL)` (line 108 of the
delivery module). -/
def rewriteEndpoint (endpoint : String) : String :=
  ⟨replaceFirst GCM_URL.data TEMP_GCM_URL.data endpoint.data⟩

/-- The `message` argument of `sendWebPush`, which JavaScript callers may
omit or pass a non-string value for; `truthy` records the JavaScript
truthiness of a non-string value. -/
inductive MessageArg where
  | absent
  | str (s : String)
  | nonString (truthy : Bool)
deriving DecidableEq

/-- Models the error thrown by the `sendWebPush` argument check (the source
concatenates the two string literals with a single space between them). -/
def usageError : String :=
  "sendWebPush() expects a subscription endpoint with an endpoint parameter and a string send with the push message."

/-- Models the error thrown when a GCM endpoint has no registered auth token
(the source concatenation is missing a space before `addAuthToken`). -/
def gcmTokenError : String :=
  "GCM requires an Auth Token. Please add one using theaddAuthToken() method."

/-- The HTTP POST that `sendWebPush` hands to `request.post`. -/
structure PushRequest where
  endpoint : String
  headers : List (String × String)
  body : Bytes

/-- Models `sendWebPush(subscription, message)` from the delivery module up
to the transport call: argument validation, auth-token lookup, encryption
(passed in explicitly, since the source delegates to the encryption module),
header construction, the GCM auth-token requirement, and the endpoint
rewrite. The result is the request posted, or the error thrown. -/
def sendWebPushModel (encryptFn : String → Subscription → Except String EncryptionResult)
    (tokens : List AuthEntry) (subscription : Option Subscription) (message : MessageArg) :
    Except String PushRequest :=
  match subscription, message with
  | some sub, MessageArg.str msg =>
    match sub.endpoint with
    | some endpoint =>
      if endpoint = "" ∨ msg = "" then Except.error usageError
      else
        let authToken := getAuthToken tokens endpoint
        match encryptFn msg sub with
        | Except.error e => Except.error e
        | Except.ok payload =>
          let headers := [("Encryption", "salt=" ++ ub64 payload.salt),
                          ("Crypto-Key", "dh=" ++ ub64 payload.serverPublicKey)]
          match authToken with
          | some tok =>
            Except.ok ⟨rewriteEndpoint endpoint,
                       headers ++ [("Authorization", "key=" ++ tok)], payload.ciphertext⟩
          | none =>
            if containsSub endpoint GCM_URL then Except.error gcmTokenError
            else Except.ok ⟨rewriteEndpoint endpoint, headers, payload.ciphertext⟩
    | none => Except.error usageError
  | _, _ => Except.error usageError

/-- A response delivered by the `request` transport to the callback. -/
structure HttpResponse where
  statusCode : Nat
  statusMessage : String
deriving DecidableEq

/-- What the transport passes to the `request.post` callback: an error, or a
response together with a body. -/
inductive TransportResult where
  | transportError (e : String)
  | response (r : HttpResponse) (body : String)
deriving DecidableEq

/-- How a delivery settles the returned promise. -/
inductive DeliveryOutcome where
  | rejectedError (e : String)
  | rejectedExpired (code : String) (statusCode : Nat) (statusMessage : String) (body : String)
  | resolved (statusCode : Nat) (statusMessage : String) (body : String)
deriving DecidableEq

/-- Models the `request.post` callback of the delivery module's
`sendWebPush` (lines 110-125): reject a transport error unchanged, resolve
every response. -/
def handleResponse : TransportResult → DeliveryOutcome
  | TransportResult.transportError e => DeliveryOutcome.rejectedError e
  | TransportResult.response r body => DeliveryOutcome.resolved r.statusCode r.statusMessage body

/-- Models the `request.post` callback of the alternate `sendWebPush`
variant shipped in the repository (the unnamed source file): a response with
status in [400, 500) is rejected as an expired subscription. -/
def handleResponseAlt : TransportResult → DeliveryOutcome
  | TransportResult.transportError e => DeliveryOutcome.rejectedError e
  | TransportResult.response r body =>
    if 400 ≤ r.statusCode ∧ r.statusCode < 500 then
      DeliveryOutcome.rejectedExpired "expired-subscription" r.statusCode r.statusMessage body
    else DeliveryOutcome.resolved r.statusCode r.statusMessage body

/-! ### Concrete values drawn from the repository's test suite -/

/-- The `p256dh` key of the test suite's `VALID_SUBSCRIPTION`, base64-decoded
(65 bytes). -/
def exampleClientKey : Bytes :=
  [4, 34, 22, 130, 201, 242, 92, 59, 245, 86, 72, 106, 47, 99, 251, 97, 16, 111, 117, 235,
   131, 158, 92, 0, 61, 61, 160, 184, 216, 93, 34, 133, 183, 32, 254, 198, 152, 120, 117, 72,
   194, 143, 47, 20, 95, 239, 31, 47, 39, 46, 153, 20, 173, 232, 151, 106, 33, 130, 127, 254,
   211, 35, 251, 65, 0]

/-- The `auth` secret of the test suite's `VALID_SUBSCRIPTION`, base64-decoded
(16 bytes). -/
def exampleValidAuth : Bytes :=
  [241, 224, 242, 95, 251, 130, 55, 69, 209, 133, 38, 216, 230, 27, 59, 30]

/-- The `auth` value of the test suite's `INVALID_AUTH_SUBSCRIPTION`,
base64-decoded: only 12 bytes. -/
def exampleInvalidAuth : Bytes := [184, 35, 116, 93, 24, 82, 109, 142, 97, 179, 177, 224]

/-- The public key of the test suite's `EXAMPLE_SERVER_KEYS`, base64-decoded
(65 bytes). -/
def exampleServerPublicKey : Bytes :=
  [4, 232, 57, 41, 246, 34, 5, 208, 195, 68, 93, 118, 70, 45, 123, 203, 123, 254, 60, 227,
   235, 241, 125, 39, 84, 253, 163, 14, 58, 48, 61, 82, 63, 12, 194, 148, 213, 164, 55, 56,
   183, 79, 31, 88, 154, 106, 75, 209, 247, 243, 199, 171, 171, 77, 11, 50, 71, 223, 155, 255,
   37, 76, 246, 114, 182]

/-- The P-256 shared secret of the example server private key and
`exampleClientKey` (the value `serverECDH.computeSecret` returns in the test
suite's stubbed run). -/
def exampleSharedSecret : Bytes :=
  [190, 9, 11, 230, 139, 68, 148, 158, 237, 7, 120, 231, 198, 138, 125, 131, 187, 6, 198, 227,
   56, 128, 107, 57, 52, 189, 234, 76, 44, 94, 244, 145]

/-- The test suite's `EXAMPLE_SALT`, base64-decoded: 16 zero bytes. -/
def exampleSalt : Bytes := List.replicate 16 0

def exampleEndpoint : String := "https://example-endpoint.com/example/1234"

/-- The randomness of the test suite's stubbed encryption run. -/
def exampleRandomness : Randomness :=
  ⟨exampleSalt, exampleServerPublicKey, fun _ => exampleSharedSecret⟩

/-- The test suite's `VALID_SUBSCRIPTION`, keys decoded. -/
def validSubscription : Subscription :=
  ⟨some exampleEndpoint, some ⟨some exampleClientKey, some exampleValidAuth⟩⟩

/-- The test suite's `INVALID_AUTH_SUBSCRIPTION`, keys decoded: a valid
65-byte client key but a 12-byte auth secret. -/
def invalidAuthSubscription : Subscription :=
  ⟨some exampleEndpoint, some ⟨some exampleClientKey, some exampleInvalidAuth⟩⟩

/-! ## Theorems

First the auxiliary lemmas shared across claims, then one theorem per
claim (with its witness or counterexample). -/

@[simp] theorem sha256_length (msg : Bytes) : (sha256 msg).length = 32 := by
  simp [sha256, digestBytes, be32]

@[simp] theorem hmacSha256_length (key msg : Bytes) : (hmacSha256 key msg).length = 32 := by
  simp [hmacSha256]

@[simp] theorem aes128Block_length (key block : Bytes) : (aes128Block key block).length = 16 := by
  simp [aes128Block, aesFinalRound, addRoundKey]

@[simp] theorem gcmTag_length (key iv ct : Bytes) : (gcmTag key iv ct).length = 16 := by
  simp [gcmTag]

theorem createContext_ok (c s : Bytes) (hc : c.length = 65) (hs : s.length = 65) :
    createContext c s = Except.ok ([0] ++ [0, 65] ++ c ++ [0, 65] ++ s) := by
  simp [createContext, hc, hs, be16]

theorem contextBytes_length (c s : Bytes) (hc : c.length = 65) (hs : s.length = 65) :
    (([0] ++ [0, 65] ++ c ++ [0, 65] ++ s) : Bytes).length = 135 := by
  simp [hc, hs]

theorem createInfo_ok (ty : String) (ctx : Bytes) (h : ctx.length = 135) :
    createInfo ty ctx
      = Except.ok (strBytes "Content-Encoding: " ++ strBytes ty ++ [0] ++ strBytes "P-256" ++ ctx) := by
  simp [createInfo, h]

/-- With all key material present, a well-formed 65-byte client key and a
65-byte generated server key, `encrypt` reaches the final `return` for any
message of at most `MAX_PAYLOAD_LENGTH` bytes: no other validation exists on
the path (in particular none on the auth token's length). -/
theorem encrypt_isOk (msg : Bytes) (ep : Option String) (ks : SubscriptionKeys)
    (cpk auth : Bytes) (r : Randomness)
    (hlen : msg.length ≤ 4080)
    (hp : ks.p256dh = some cpk) (ha : ks.auth = some auth)
    (hc : cpk.length = 65) (hs : r.serverPublicKey.length = 65) :
    (encrypt msg (some ⟨ep, some ks⟩) r).isOk = true := by
  have hnot : ¬ (msg.length > MAX_PAYLOAD_LENGTH) := by
    simp only [MAX_PAYLOAD_LENGTH]; omega
  have hctx := createContext_ok cpk r.serverPublicKey hc hs
  have hlen135 := contextBytes_length cpk r.serverPublicKey hc hs
  simp only [encrypt, if_neg hnot, hp, ha, hctx, createInfo_ok _ _ hlen135, Except.isOk,
    Except.toBool]

/-- C1 (amended): `encrypt` takes no padding argument and fails with its
payload-size error exactly when the message's byte length exceeds 4080; the
thrown message reports only the actual length, not the maximum or a padding
length. In particular a 4078-byte message succeeds for a valid subscription
and a 4081-byte message fails. -/
theorem encrypt_payload_size_policy (msg : Bytes) (ep : Option String)
    (ks : SubscriptionKeys) (cpk auth : Bytes) (r : Randomness)
    (hp : ks.p256dh = some cpk) (ha : ks.auth = some auth)
    (hc : cpk.length = 65) (hs : r.serverPublicKey.length = 65) :
    (4080 < msg.length →
      encrypt msg (some ⟨ep, some ks⟩) r
        = Except.error ("Payload is too large: " ++ toString msg.length ++ " bytes"))
    ∧ (msg.length ≤ 4080 → (encrypt msg (some ⟨ep, some ks⟩) r).isOk = true) := by
  constructor
  · intro h
    have hgt : msg.length > MAX_PAYLOAD_LENGTH := by simp only [MAX_PAYLOAD_LENGTH]; omega
    simp only [encrypt, if_pos hgt]
  · intro h
    exact encrypt_isOk msg ep ks cpk auth r h hp ha hc hs

/-- C1 counterexample: the claim's size condition says a 4077-byte message
with no extra padding must fail (4077 + 2 + 0 > 4078), but `encrypt`
succeeds on it with a valid subscription. -/
theorem encrypt_payload_size_claim_false :
    4077 + 2 + 0 > 4078
    ∧ (encrypt (List.replicate 4077 97)
        (some ⟨some exampleEndpoint, some ⟨some exampleClientKey, some exampleValidAuth⟩⟩)
        exampleRandomness).isOk = true := by
  refine ⟨by omega, encrypt_isOk _ _ _ exampleClientKey exampleValidAuth _
    (by simp only [List.length_replicate]; omega) rfl rfl rfl rfl⟩

/-- C1 witness: boundary instances on the valid test subscription — a
4078-byte message succeeds, a 4081-byte message fails reporting its length. -/
theorem encrypt_payload_size_policy_witness :
    (encrypt (List.replicate 4078 65)
        (some ⟨some exampleEndpoint, some ⟨some exampleClientKey, some exampleValidAuth⟩⟩)
        exampleRandomness).isOk = true
    ∧ encrypt (List.replicate 4081 65)
        (some ⟨some exampleEndpoint, some ⟨some exampleClientKey, some exampleValidAuth⟩⟩)
        exampleRandomness
        = Except.error ("Payload is too large: " ++ toString (4081 : Nat) ++ " bytes") := by
  constructor
  · exact (encrypt_payload_size_policy (List.replicate 4078 65) (some exampleEndpoint)
      ⟨some exampleClientKey, some exampleValidAuth⟩ exampleClientKey exampleValidAuth
      exampleRandomness rfl rfl rfl rfl).2 (by simp only [List.length_replicate]; omega)
  · have := (encrypt_payload_size_policy (List.replicate 4081 65) (some exampleEndpoint)
      ⟨some exampleClientKey, some exampleValidAuth⟩ exampleClientKey exampleValidAuth
      exampleRandomness rfl rfl rfl rfl).1 (by simp only [List.length_replicate]; omega)
    simpa only [List.length_replicate] using this

/-- C2: for 65-byte inputs `createContext` returns exactly the 135-byte
layout — a zero byte, the big-endian 16-bit value 65, the client key, the
big-endian 16-bit value 65, the server key — and any other input length
fails with an invalid-key-length error. -/
theorem createContext_layout (c s : Bytes) :
    (c.length = 65 → s.length = 65 →
      createContext c s = Except.ok ([0] ++ [0, 65] ++ c ++ [0, 65] ++ s)
      ∧ (([0] ++ [0, 65] ++ c ++ [0, 65] ++ s) : Bytes).length = 135)
    ∧ (¬ (c.length = 65 ∧ s.length = 65) →
      createContext c s = Except.error "Invalid client public key length"
      ∨ createContext c s = Except.error "Invalid server public key length") := by
  constructor
  · intro hc hs
    exact ⟨createContext_ok c s hc hs, contextBytes_length c s hc hs⟩
  · intro hbad
    by_cases hc : c.length = 65
    · have hs : s.length ≠ 65 := fun hs => hbad ⟨hc, hs⟩
      right; simp [createContext, hc, hs]
    · left; simp [createContext, hc]

/-- C2 witness: `createContext` at concrete 65-byte keys, and at a 1-byte
client key. -/
theorem createContext_layout_witness :
    (createContext (List.replicate 65 1) (List.replicate 65 2)
      = Except.ok ([0] ++ [0, 65] ++ List.replicate 65 1 ++ [0, 65] ++ List.replicate 65 2)
      ∧ (([0] ++ [0, 65] ++ List.replicate 65 1 ++ [0, 65] ++ List.replicate 65 2) : Bytes).length = 135)
    ∧ (createContext [7] (List.replicate 65 2) = Except.error "Invalid client public key length"
      ∨ createContext [7] (List.replicate 65 2) = Except.error "Invalid server public key length") :=
  ⟨(createContext_layout (List.replicate 65 1) (List.replicate 65 2)).1 (by simp) (by simp),
   (createContext_layout [7] (List.replicate 65 2)).2 (by simp)⟩

/-- C3: for an output length of at most 32, `hkdf` equals the first `length`
bytes of HMAC-SHA-256 keyed by the PRK applied to the info followed by the
byte 0x01, where the PRK is HMAC-SHA-256 keyed by the salt applied to the
input keying material; the output has exactly `length` bytes. `hkdf` is a
pure function of `(salt, ikm, info, length)`, so determinism is by
construction. -/
theorem hkdf_extract_expand (salt ikm info : Bytes) (len : Nat) (h : len ≤ 32) :
    hkdf salt ikm info len = (hmacSha256 (hmacSha256 salt ikm) (info ++ [1])).take len
    ∧ (hkdf salt ikm info len).length = len := by
  constructor
  · simp [hkdf, Hmac.digest, Hmac.update, createHmac, ONE_BUFFER]
  · simp only [hkdf, Hmac.digest, Hmac.update, createHmac, List.length_take,
      hmacSha256_length]
    omega

/-- C3 witness: `hkdf` at concrete inputs with output length 16. -/
theorem hkdf_extract_expand_witness :
    hkdf [1, 2] [3] [4] 16 = (hmacSha256 (hmacSha256 [1, 2] [3]) ([4] ++ [1])).take 16
    ∧ (hkdf [1, 2] [3] [4] 16).length = 16 :=
  hkdf_extract_expand [1, 2] [3] [4] 16 (by omega)

theorem xorKeystream_append (key iv : Bytes) (off : Nat) (a b : Bytes) :
    xorKeystream key iv off (a ++ b)
      = xorKeystream key iv off a ++ xorKeystream key iv (off + a.length) b := by
  induction a generalizing off with
  | nil => simp [xorKeystream]
  | cons x xs ih =>
    have harith : off + 1 + xs.length = off + (xs.length + 1) := by omega
    simp only [List.cons_append, xorKeystream, List.append_eq, List.length_cons,
      ih (off + 1), harith]

theorem xorKeystream_length (key iv : Bytes) (off : Nat) (d : Bytes) :
    (xorKeystream key iv off d).length = d.length := by
  induction d generalizing off with
  | nil => simp [xorKeystream]
  | cons x xs ih => simp [xorKeystream, ih]

/-- C4: `encryptPayload` equals the one-shot AES-128-GCM encryption of the
two-byte zero prefix followed by the plaintext, with the 16-byte tag
appended, and its length is exactly 2 + len(plaintext) + 16. -/
theorem encryptPayload_spec (plaintext key nonce : Bytes)
    (hk : key.length = 16) (hn : nonce.length = 12) :
    encryptPayload plaintext key nonce
      = (aes128gcm key nonce (PADDING_BUFFER ++ plaintext)).1
        ++ (aes128gcm key nonce (PADDING_BUFFER ++ plaintext)).2
    ∧ (encryptPayload plaintext key nonce).length = 2 + plaintext.length + 16 := by
  have hsplit := xorKeystream_append key nonce 0 PADDING_BUFFER plaintext
  have hpb : (PADDING_BUFFER : Bytes).length = 2 := rfl
  constructor
  · simp only [encryptPayload, createCipheriv, CipherState.update, CipherState.getAuthTag,
      aes128gcm, hsplit, hpb, List.nil_append, Nat.zero_add, List.append_assoc]
  · simp only [encryptPayload, createCipheriv, CipherState.update, CipherState.getAuthTag,
      List.append_assoc, List.length_append, xorKeystream_length, gcmTag_length, hpb]
    omega

/-- C4 witness: `encryptPayload` at a concrete plaintext, 16-byte key and
12-byte nonce. -/
theorem encryptPayload_spec_witness :
    encryptPayload [104, 105] (List.replicate 16 1) (List.replicate 12 2)
      = (aes128gcm (List.replicate 16 1) (List.replicate 12 2) (PADDING_BUFFER ++ [104, 105])).1
        ++ (aes128gcm (List.replicate 16 1) (List.replicate 12 2) (PADDING_BUFFER ++ [104, 105])).2
    ∧ (encryptPayload [104, 105] (List.replicate 16 1) (List.replicate 12 2)).length
        = 2 + ([104, 105] : Bytes).length + 16 :=
  encryptPayload_spec [104, 105] (List.replicate 16 1) (List.replicate 12 2) rfl rfl

/-- C5: the claim (backed by the repository's own test suite, which expects
the error `Subscription's Auth token is not 16 bytes.`) requires `encrypt`
to reject an auth token that does not decode to 16 bytes, but the encrypt
module performs no such check: on the test suite's
`INVALID_AUTH_SUBSCRIPTION`, whose auth value decodes to 12 bytes, `encrypt`
runs the whole derivation and returns an encrypted payload. -/
theorem encrypt_accepts_short_auth_token :
    exampleInvalidAuth.length = 12
    ∧ (encrypt (strBytes "Hello, World") (some invalidAuthSubscription) exampleRandomness).isOk
        = true := by
  constructor
  · rfl
  · have h := encrypt_isOk (strBytes "Hello, World") (some exampleEndpoint)
      ⟨some exampleClientKey, some exampleInvalidAuth⟩ exampleClientKey exampleInvalidAuth
      exampleRandomness (by decide) rfl rfl rfl rfl
    simpa only [invalidAuthSubscription] using h

/-- C6 (amended): the delivery module's `sendWebPush` rejects a transport
error unchanged and resolves every non-error response — whatever its status,
including those in [400, 500) — as a successful outcome preserving
statusCode, statusMessage and body; only the repository's alternate
`sendWebPush` variant classifies statuses in [400, 500) as an
expired-subscription rejection. -/
theorem sendWebPush_response_classification (e : String) (r : HttpResponse) (body : String) :
    handleResponse (TransportResult.transportError e) = DeliveryOutcome.rejectedError e
    ∧ handleResponse (TransportResult.response r body)
        = DeliveryOutcome.resolved r.statusCode r.statusMessage body
    ∧ (400 ≤ r.statusCode → r.statusCode < 500 →
        handleResponseAlt (TransportResult.response r body)
          = DeliveryOutcome.rejectedExpired "expired-subscription" r.statusCode r.statusMessage body) := by
  refine ⟨rfl, rfl, fun h1 h2 => ?_⟩
  simp [handleResponseAlt, h1, h2]

/-- C6 counterexample: a 410 response is resolved as a plain success by the
delivery module's `sendWebPush`, not classified as an expired subscription. -/
theorem sendWebPush_410_resolves_as_success :
    handleResponse (TransportResult.response ⟨410, "Gone"⟩ "gone-body")
      = DeliveryOutcome.resolved 410 "Gone" "gone-body"
    ∧ handleResponse (TransportResult.response ⟨410, "Gone"⟩ "gone-body")
      ≠ DeliveryOutcome.rejectedExpired "expired-subscription" 410 "Gone" "gone-body" :=
  ⟨rfl, by decide⟩

/-- C6 witness: classification at a transport error and at a concrete 404
response. -/
theorem sendWebPush_response_classification_witness :
    handleResponse (TransportResult.transportError "boom") = DeliveryOutcome.rejectedError "boom"
    ∧ handleResponse (TransportResult.response ⟨404, "Not Found"⟩ "nf")
        = DeliveryOutcome.resolved 404 "Not Found" "nf"
    ∧ handleResponseAlt (TransportResult.response ⟨404, "Not Found"⟩ "nf")
        = DeliveryOutcome.rejectedExpired "expired-subscription" 404 "Not Found" "nf" :=
  ⟨(sendWebPush_response_classification "boom" ⟨404, "Not Found"⟩ "nf").1,
   (sendWebPush_response_classification "boom" ⟨404, "Not Found"⟩ "nf").2.1,
   (sendWebPush_response_classification "boom" ⟨404, "Not Found"⟩ "nf").2.2 (by decide) (by decide)⟩

/-- C7: `getAuthToken` returns the token of the earliest-registered entry
whose pattern occurs in the endpoint (`List.find?` semantics, so `none` when
no pattern matches), `addAuthToken` appends — retaining duplicate
patterns — and earlier registrations win over anything appended later. -/
theorem getAuthToken_first_match (tokens : List AuthEntry) (endpoint pat tok : String) :
    getAuthToken tokens endpoint
      = (tokens.find? fun e => containsSub endpoint e.pattern).map AuthEntry.token
    ∧ addAuthToken tokens pat tok = tokens ++ [⟨pat, tok⟩]
    ∧ ∀ more : List AuthEntry,
        getAuthToken (tokens ++ more) endpoint
          = (getAuthToken tokens endpoint).orElse fun _ => getAuthToken more endpoint := by
  refine ⟨?_, rfl, ?_⟩
  · induction tokens with
    | nil => rfl
    | cons e rest ih =>
      by_cases h : containsSub endpoint e.pattern = true
      · simp [getAuthToken, List.find?_cons, h]
      · simp [getAuthToken, List.find?_cons, h, ih]
  · intro more
    induction tokens with
    | nil => simp [getAuthToken, Option.orElse]
    | cons e rest ih =>
      by_cases h : containsSub endpoint e.pattern = true
      · simp [getAuthToken, h, Option.orElse]
      · simp [getAuthToken, h, ih, Option.orElse]

theorem containsList_nil_left (s : List Char) : containsList [] s = true := by
  cases s with
  | nil => rfl
  | cons c rest => simp [containsList, List.isPrefixOf]

theorem containsSub_empty (s : String) : containsSub s "" = true := by
  have h : ("" : String).data = [] := rfl
  simp only [containsSub, h, containsList_nil_left]

/-- C10: once an entry with the empty pattern is registered, `getAuthToken`
returns a token for every endpoint (the empty string occurs in every
string); the empty entry's own token is returned by every lookup that
matches no earlier entry. -/
theorem getAuthToken_empty_pattern (tokens : List AuthEntry) (endpoint : String)
    (h : ∃ e ∈ tokens, e.pattern = "") :
    (getAuthToken tokens endpoint).isSome = true
    ∧ ∀ (ts1 ts2 : List AuthEntry) (tok : String),
        (∀ e ∈ ts1, containsSub endpoint e.pattern = false) →
        getAuthToken (ts1 ++ { pattern := "", token := tok } :: ts2) endpoint = some tok := by
  constructor
  · induction tokens with
    | nil => simp at h
    | cons e rest ih =>
      by_cases hm : containsSub endpoint e.pattern = true
      · simp [getAuthToken, hm]
      · have hrest : ∃ x ∈ rest, x.pattern = "" := by
          rcases h with ⟨x, hx, hxp⟩
          rcases List.mem_cons.mp hx with hxe | hxr
          · exfalso
            apply hm
            rw [← hxe, hxp]
            exact containsSub_empty endpoint
          · exact ⟨x, hxr, hxp⟩
        simp [getAuthToken, hm, ih hrest]
  · intro ts1 ts2 tok hall
    induction ts1 with
    | nil => simp [getAuthToken, containsSub_empty]
    | cons e rest ih =>
      have he : containsSub endpoint e.pattern = false := hall e (List.mem_cons_self e rest)
      have hrest := ih fun x hx => hall x (List.mem_cons_of_mem e hx)
      simp [getAuthToken, he, hrest]

/-- C10 witness: an empty-pattern registration matches a concrete endpoint,
also behind a non-matching earlier entry. -/
theorem getAuthToken_empty_pattern_witness :
    (getAuthToken [⟨"", "tokenA"⟩] "https://endpoint.example/x").isSome = true
    ∧ getAuthToken ([⟨"zzz", "tokenB"⟩] ++ { pattern := "", token := "tokenC" } :: [])
        "https://endpoint.example/x" = some "tokenC" := by
  have h := getAuthToken_empty_pattern [⟨"", "tokenA"⟩] "https://endpoint.example/x"
    ⟨⟨"", "tokenA"⟩, by simp, rfl⟩
  exact ⟨h.1, h.2 [⟨"zzz", "tokenB"⟩] [] "tokenC" (by decide)⟩

/-- C9: the exported `sendWebPush` throws its usage error before any
encryption (the statement holds for every encryption function) and before
building any request whenever the message is absent, the empty string or not
a string; conversely a request is only ever produced for a non-empty string
message, so this entry point never performs a body-less push. -/
theorem sendWebPush_message_guard
    (encryptFn : String → Subscription → Except String EncryptionResult)
    (tokens : List AuthEntry) (subscription : Option Subscription) (message : MessageArg) :
    ((message = MessageArg.absent ∨ message = MessageArg.str ""
        ∨ ∃ t, message = MessageArg.nonString t) →
      sendWebPushModel encryptFn tokens subscription message = Except.error usageError)
    ∧ (∀ req, sendWebPushModel encryptFn tokens subscription message = Except.ok req →
        ∃ s, message = MessageArg.str s ∧ s ≠ "") := by
  constructor
  · rintro (rfl | rfl | ⟨t, rfl⟩)
    · cases subscription <;> rfl
    · cases subscription with
      | none => rfl
      | some sub =>
        obtain ⟨epOpt, keys⟩ := sub
        cases epOpt with
        | none => rfl
        | some ep => simp [sendWebPushModel]
    · cases subscription <;> rfl
  · intro req hok
    cases subscription with
    | none => simp [sendWebPushModel] at hok
    | some sub =>
      cases message with
      | absent => simp [sendWebPushModel] at hok
      | nonString t => simp [sendWebPushModel] at hok
      | str s =>
        refine ⟨s, rfl, ?_⟩
        intro hs
        subst hs
        obtain ⟨epOpt, keys⟩ := sub
        cases epOpt with
        | none => simp [sendWebPushModel] at hok
        | some ep => simp [sendWebPushModel] at hok

/-- C9 witness: an absent message is rejected with the usage error. -/
theorem sendWebPush_message_guard_witness :
    sendWebPushModel (fun _ _ => Except.error "unused") []
      (some ⟨some "https://example-endpoint.com/example/1234", none⟩) MessageArg.absent
      = Except.error usageError :=
  (sendWebPush_message_guard (fun _ _ => Except.error "unused") []
    (some ⟨some "https://example-endpoint.com/example/1234", none⟩) MessageArg.absent).1
    (Or.inl rfl)

theorem replaceFirst_of_prefix (pat rep s : List Char) (h : pat.isPrefixOf s = true) :
    replaceFirst pat rep s = rep ++ List.drop pat.length s := by
  cases s with
  | nil => simp [replaceFirst, h]
  | cons c rest => simp [replaceFirst, h]

theorem replaceFirst_of_not_contains (pat rep s : List Char)
    (h : containsList pat s = false) : replaceFirst pat rep s = s := by
  induction s with
  | nil =>
    have hpre : pat.isPrefixOf ([] : List Char) = false := by
      simpa [containsList] using h
    simp [replaceFirst, hpre]
  | cons c rest ih =>
    have h2 : pat.isPrefixOf (c :: rest) = false ∧ containsList pat rest = false := by
      simpa [containsList] using h
    simp [replaceFirst, h2.1, ih h2.2]

/-- C8 (amended): `sendWebPush` posts to the endpoint with the first
occurrence of the legacy gateway base URL replaced by the transitional base
URL. An endpoint beginning with the legacy URL is rewritten with the
remainder preserved byte-for-byte; an endpoint that does not contain the
legacy URL anywhere passes through unchanged (merely not beginning with it
is not enough). -/
theorem sendWebPush_endpoint_rewrite (rest : List Char) (e : String)
    (encryptFn : String → Subscription → Except String EncryptionResult)
    (tokens : List AuthEntry) (ks : Option SubscriptionKeys) (ep msg : String)
    (req : PushRequest) :
    rewriteEndpoint ⟨GCM_URL.data ++ rest⟩ = ⟨TEMP_GCM_URL.data ++ rest⟩
    ∧ (containsList GCM_URL.data e.data = false → rewriteEndpoint e = e)
    ∧ (sendWebPushModel encryptFn tokens (some ⟨some ep, ks⟩) (MessageArg.str msg)
          = Except.ok req → req.endpoint = rewriteEndpoint ep) := by
  refine ⟨?_, ?_, ?_⟩
  · have hpre : GCM_URL.data.isPrefixOf (GCM_URL.data ++ rest) = true :=
      List.isPrefixOf_iff_prefix.mpr (List.prefix_append _ _)
    simp [rewriteEndpoint, replaceFirst_of_prefix _ _ _ hpre, List.drop_left]
  · intro h
    have hr := replaceFirst_of_not_contains GCM_URL.data TEMP_GCM_URL.data e.data h
    cases e with
    | mk data => simp [rewriteEndpoint, hr]
  · intro hok
    by_cases hcond : (ep = "" ∨ msg = "")
    · simp [sendWebPushModel, hcond] at hok
    · simp only [sendWebPushModel, if_neg hcond] at hok
      cases henc : encryptFn msg ⟨some ep, ks⟩ with
      | error err => rw [henc] at hok; simp at hok
      | ok payload =>
        rw [henc] at hok
        cases htok : getAuthToken tokens ep with
        | some tok =>
          rw [htok] at hok
          simp only [Except.ok.injEq] at hok
          rw [← hok]
        | none =>
          rw [htok] at hok
          by_cases hgcm : containsSub ep GCM_URL = true
          · simp [hgcm] at hok
          · simp only [hgcm, Bool.false_eq_true, if_false, Except.ok.injEq] at hok
            rw [← hok]

/-- C8 counterexample: an endpoint that does not begin with the legacy base
URL but contains it is still changed, contradicting the claim that
non-prefixed endpoints pass through unchanged. -/
theorem rewriteEndpoint_claim_false :
    rewriteEndpoint "xhttps://android.googleapis.com/gcm/send"
      = "xhttps://gcm-http.googleapis.com/gcm"
    ∧ rewriteEndpoint "xhttps://android.googleapis.com/gcm/send"
      ≠ "xhttps://android.googleapis.com/gcm/send"
    ∧ GCM_URL.data.isPrefixOf ("xhttps://android.googleapis.com/gcm/send" : String).data
      = false :=
  ⟨by decide, by decide, by decide⟩

/-- C8 witness: a prefixed endpoint is rewritten with its registration path
preserved, a GCM-free endpoint passes through unchanged, and a concrete
`sendWebPush` run posts to the rewritten endpoint. -/
theorem sendWebPush_endpoint_rewrite_witness :
    rewriteEndpoint ⟨GCM_URL.data ++ ("/registration-1" : String).data⟩
      = ⟨TEMP_GCM_URL.data ++ ("/registration-1" : String).data⟩
    ∧ rewriteEndpoint "https://example.com/push" = "https://example.com/push"
    ∧ PushRequest.endpoint
        ⟨"https://example.com/push", [("Encryption", "salt=Ag"), ("Crypto-Key", "dh=Aw")], [1]⟩
      = rewriteEndpoint "https://example.com/push" := by
  have h := sendWebPush_endpoint_rewrite ("/registration-1" : String).data
    "https://example.com/push" (fun _ _ => Except.ok ⟨[1], [2], [3]⟩) []
    none "https://example.com/push" "m"
    ⟨"https://example.com/push", [("Encryption", "salt=Ag"), ("Crypto-Key", "dh=Aw")], [1]⟩
  exact ⟨h.1, h.2.1 (by decide), h.2.2 (by rfl)⟩

end WebPush
